import Mathlib

/-
Verification of the study-buddy backend (src/main.py) against its
natural-language specification.

The service is five FastAPI handlers over a sqlite store with two tables
(`users`, `quiz_history`).  The embedding below renders each handler as a
pure Lean function over an explicit database value.  External effects are
passed in as parameters:

  * `pyHash : String → Int`   models Python's builtin `hash` on strings
    (an arbitrary integer-valued function: within one process it is a
    fixed deterministic function of its argument);
  * `now : String`            models `datetime.now().isoformat()`;
  * `newId`, `quizId`         model the md5-derived identifiers;
  * `respText : String`       models the text returned by the generative
    model (`response.text`);
  * `loads : String → Option (List Question)` models `json.loads` applied
    to the extracted substring: `some` is a successful parse, `none` is a
    raised `JSONDecodeError`.  The handler never inspects the parsed
    value, so representing it at the expected question shape loses
    nothing.

The sqlite schema (init_db, src/main.py lines 35-61) declares
`users.id` and `quiz_history.id` as PRIMARY KEY; an INSERT with a
duplicate id raises sqlite3.IntegrityError before any commit, which the
handler's blanket `except Exception` turns into an HTTP 500 with the
database unchanged.  The branches below encode exactly that.

The chat handler (lines 92-119) and the quiz-generation handler
(lines 121-169) never open the database; this is visible in their types
here, which take no DB argument.
-/

/-- Outcome of a request: a JSON body, or an HTTP error status raised via
HTTPException.  The claims only concern status codes, so the `detail`
text is not carried. -/
inductive HttpResult (α : Type) where
  | ok (val : α)
  | error (status : Nat)
  deriving DecidableEq

/-- Row of the `users` table (id TEXT PRIMARY KEY, name TEXT,
subjects TEXT, level INTEGER DEFAULT 1, xp INTEGER DEFAULT 0). -/
structure UserRow where
  id : String
  name : String
  subjects : String
  level : Int
  xp : Int
  deriving DecidableEq

/-- Row of the `quiz_history` table (id TEXT PRIMARY KEY, user_id TEXT,
subject TEXT, score INTEGER, total_questions INTEGER, timestamp TEXT). -/
structure QuizRow where
  id : String
  user_id : String
  subject : String
  score : Int
  total_questions : Nat
  timestamp : String
  deriving DecidableEq

/-- The persistent store: the two tables, rows in insertion order. -/
structure DB where
  users : List UserRow
  quiz_history : List QuizRow
  deriving DecidableEq

/-- Request body of POST /api/generate-quiz (pydantic model QuizRequest). -/
structure QuizRequest where
  subject : String
  topic : String
  difficulty : String
  num_questions : Nat
  user_id : String
  deriving DecidableEq

/-- One multiple-choice question as produced by quiz generation. -/
structure Question where
  question : String
  options : List String
  correct_answer : String
  explanation : String
  deriving DecidableEq

/-- Response body of POST /api/generate-quiz. -/
structure QuizResponse where
  quiz_id : String
  questions : List Question
  subject : String
  topic : String
  difficulty : String
  deriving DecidableEq

/-- Request body of POST /api/submit-quiz (pydantic model QuizSubmission). -/
structure QuizSubmission where
  user_id : String
  quiz_id : String
  answers : List String
  subject : String
  deriving DecidableEq

/-- Response body of POST /api/submit-quiz. -/
structure SubmitResponse where
  score : Int
  total_questions : Nat
  percentage : Int
  message : String
  xp_earned : Int
  deriving DecidableEq

/-- Request body of POST /api/create-user (pydantic model User).
`grade_level` is accepted but never stored. -/
structure UserRequest where
  name : String
  subjects : List String
  grade_level : String
  deriving DecidableEq

/-- Response body of POST /api/create-user. -/
structure CreateResponse where
  user_id : String
  message : String
  deriving DecidableEq

/-- Per-subject aggregate produced by the GROUP BY query in the stats
handler.  sqlite's AVG is modelled exactly over the rationals. -/
structure SubjectStat where
  subject : String
  average_score : Rat
  quiz_count : Nat
  deriving DecidableEq

/-- Response body of GET /api/user-stats/(user_id). -/
structure StatsResponse where
  user_id : String
  name : String
  level : Int
  xp : Int
  subject_stats : List SubjectStat
  deriving DecidableEq

/-- Models `json.dumps` on a list of strings (create_user serializes the
subjects list this way; no claim inspects the blob, and no sample input
needs character escaping). -/
def dumpsList (l : List String) : String :=
  "[" ++ String.intercalate ", " (l.map fun s => "\"" ++ s ++ "\"") ++ "]"

/-- Models `re.search(r'\[.*\]', text, re.DOTALL)` from generate_quiz
(src/main.py line 144).  The pattern matches greedily: the match, when
one exists, runs from the first `[` in the text to the last `]`, and a
match exists exactly when the first `[` occurs before the last `]`. -/
def extractBracketed (s : String) : Option String :=
  let cs := s.data
  match cs.findIdx? (fun c => c == '['), cs.reverse.findIdx? (fun c => c == ']') with
  | some i, some rj =>
    let j := cs.length - 1 - rj
    if i < j then some (String.mk ((cs.drop i).take (j - i + 1))) else none
  | _, _ => none

/-- The synthetic placeholder question built when no bracketed substring
is found in the model output (src/main.py lines 149-156). -/
def fallbackQuestion (topic : String) : Question :=
  { question := "Sample question about " ++ topic ++ "?"
    options := ["A) Option 1", "B) Option 2", "C) Option 3", "D) Option 4"]
    correct_answer := "A"
    explanation := "This is a sample explanation." }

/-- POST /api/generate-quiz (src/main.py lines 121-169).  `respText` is
the model's returned text and `quizId` the md5-derived identifier.  When
the regex finds a bracketed substring, `json.loads` is applied to it: a
parse failure raises, and the blanket `except Exception` converts the
exception to HTTP 500.  Only when no substring is found at all does the
handler substitute the fallback question. -/
def generate_quiz (loads : String → Option (List Question)) (quizId : String)
    (req : QuizRequest) (respText : String) : HttpResult QuizResponse :=
  match extractBracketed respText with
  | some s =>
    match loads s with
    | some qs =>
      .ok { quiz_id := quizId, questions := qs, subject := req.subject,
            topic := req.topic, difficulty := req.difficulty }
    | none => .error 500
  | none =>
    .ok { quiz_id := quizId, questions := [fallbackQuestion req.topic],
          subject := req.subject, topic := req.topic, difficulty := req.difficulty }

/-- The scoring expression of submit_quiz (src/main.py line 176):
`min(90, max(60, hash(submission.user_id) % 40 + 60))`.  Python's `%`
with a positive modulus returns a value in [0, 40), which is `Int.emod`
here. -/
def computeScore (h : Int) : Int :=
  min 90 (max 60 (h % 40 + 60))

/-- The response dictionary of submit_quiz (src/main.py lines 191-197):
`score // 10` is Python floor division, `Int.fdiv` here. -/
def submitResponse (score : Int) (n : Nat) : SubmitResponse :=
  { score := score
    total_questions := n
    percentage := score
    message := if 80 ≤ score then "Great job!" else "Keep practicing!"
    xp_earned := Int.fdiv score 10 }

/-- POST /api/submit-quiz (src/main.py lines 171-200).  The INSERT into
quiz_history fails on a duplicate primary-key id (HTTP 500, store
unchanged); otherwise exactly one row is appended and the response is
built from the same score value. -/
def submit_quiz (pyHash : String → Int) (now : String) (sub : QuizSubmission)
    (db : DB) : HttpResult SubmitResponse × DB :=
  if db.quiz_history.any (fun r => r.id == sub.quiz_id) then
    (.error 500, db)
  else
    (.ok (submitResponse (computeScore (pyHash sub.user_id)) sub.answers.length),
     { db with quiz_history := db.quiz_history ++
         [{ id := sub.quiz_id, user_id := sub.user_id, subject := sub.subject,
            score := computeScore (pyHash sub.user_id),
            total_questions := sub.answers.length, timestamp := now }] })

/-- POST /api/create-user (src/main.py lines 202-224).  `newId` is the
md5-derived identifier.  The INSERT fails on a duplicate primary-key id
(HTTP 500, store unchanged); otherwise one row with level=1, xp=0 is
appended. -/
def create_user (newId : String) (u : UserRequest) (db : DB) :
    HttpResult CreateResponse × DB :=
  if db.users.any (fun r => r.id == newId) then
    (.error 500, db)
  else
    (.ok { user_id := newId, message := "User created successfully" },
     { db with users := db.users ++
         [{ id := newId, name := u.name, subjects := dumpsList u.subjects,
            level := 1, xp := 0 }] })

/-- Deduplication keeping first occurrences, used to model the set of
groups produced by GROUP BY subject (group order is not observable by
any claim). -/
def dedupFirst : List String → List String
  | [] => []
  | s :: rest => s :: dedupFirst (rest.filter fun t => !(t == s))
termination_by l => l.length
decreasing_by
  simp only [List.length_cons]
  exact Nat.lt_succ_of_le (List.length_filter_le _ _)

/-- The GROUP BY subject query of the stats handler (src/main.py lines
237-242): per distinct subject among the user's rows, the average score
and the row count.  Subjects with no rows produce no group. -/
def groupSubjects (rows : List QuizRow) : List SubjectStat :=
  (dedupFirst (rows.map fun r => r.subject)).map fun s =>
    let g := rows.filter fun r => r.subject == s
    { subject := s
      average_score := ((g.map fun r => r.score).sum : Rat) / (g.length : Rat)
      quiz_count := g.length }

/-- GET /api/user-stats/(user_id) (src/main.py lines 226-261).  When no
users row matches, the code raises HTTPException(404) INSIDE its own try
block; fastapi's HTTPException subclasses Exception, so the handler's own
`except Exception` catches it and re-raises HTTPException(500, str(e)).
The observable outcome for a missing user is therefore HTTP 500, which
this definition records faithfully. -/
def get_user_stats (uid : String) (db : DB) : HttpResult StatsResponse :=
  match db.users.find? (fun r => r.id == uid) with
  | none => .error 500
  | some u =>
    .ok { user_id := u.id, name := u.name, level := u.level, xp := u.xp,
          subject_stats := groupSubjects (db.quiz_history.filter fun r => r.user_id == uid) }

/-
Sample values used by witnesses and counterexamples.
-/

/-- Sample quiz-generation request. -/
def sampleQuizRequest : QuizRequest :=
  { subject := "Math", topic := "Algebra", difficulty := "easy",
    num_questions := 1, user_id := "u1" }

/-- Sample parsed question. -/
def sampleQuestion : Question :=
  { question := "What is 1+1?"
    options := ["A) 2", "B) 3", "C) 4", "D) 5"]
    correct_answer := "A"
    explanation := "Because 1+1=2." }

/-- Sample json.loads model: succeeds exactly on the string produced by
the sample extraction. -/
def sampleLoads : String → Option (List Question) :=
  fun s => if s = "[1]" then some [sampleQuestion] else none

/-- Sample submissions sharing a user identifier. -/
def sampleSub1 : QuizSubmission :=
  { user_id := "u1", quiz_id := "q1", answers := ["A", "B"], subject := "Math" }

/-- Second sample submission for the same user, different answers. -/
def sampleSub2 : QuizSubmission :=
  { user_id := "u1", quiz_id := "q2", answers := ["C"], subject := "Science" }

/-- The empty store. -/
def emptyDB : DB := { users := [], quiz_history := [] }

/-- Sample hash function: constant 7. -/
def hash7 : String → Int := fun _ => 7

/-- Sample pre-existing quiz-history row with id "q1". -/
def sampleQuizRow : QuizRow :=
  { id := "q1", user_id := "u1", subject := "Math", score := 67,
    total_questions := 2, timestamp := "2024-01-01T00:00:00" }

/-- Store already holding quiz row "q1". -/
def dbWithQuiz : DB := { users := [], quiz_history := [sampleQuizRow] }

/-- Sample user-creation request. -/
def sampleUserReq : UserRequest :=
  { name := "Ana", subjects := ["Math"], grade_level := "9" }

/-
Helper lemmas shared by several claims.
-/

/-- Bounds of the scoring expression for every hash value. -/
lemma computeScore_bounds (h : Int) :
    60 ≤ computeScore h ∧ computeScore h ≤ 90 := by
  unfold computeScore
  refine ⟨le_min (by norm_num) (le_max_left 60 _), min_le_left _ _⟩

/-- A successful submission response is exactly the dictionary built from
the hash-derived score and the answer count. -/
lemma submit_ok_elim {pyHash : String → Int} {now : String}
    {sub : QuizSubmission} {db : DB} {resp : SubmitResponse}
    (h : (submit_quiz pyHash now sub db).1 = .ok resp) :
    resp = submitResponse (computeScore (pyHash sub.user_id)) sub.answers.length := by
  unfold submit_quiz at h
  by_cases hc : db.quiz_history.any (fun r => r.id == sub.quiz_id)
  · simp [hc] at h
  · simp [hc] at h
    exact h.symm

/-- Score field of the response dictionary. -/
@[simp] lemma submitResponse_score (x : Int) (n : Nat) :
    (submitResponse x n).score = x := rfl

/-- Percentage field of the response dictionary. -/
@[simp] lemma submitResponse_percentage (x : Int) (n : Nat) :
    (submitResponse x n).percentage = x := rfl

/-- Experience-points field of the response dictionary. -/
@[simp] lemma submitResponse_xp (x : Int) (n : Nat) :
    (submitResponse x n).xp_earned = Int.fdiv x 10 := rfl

/-- Message field of the response dictionary. -/
lemma submitResponse_message (x : Int) (n : Nat) :
    (submitResponse x n).message =
      if 80 ≤ x then "Great job!" else "Keep practicing!" := rfl

/-- find? skips a prefix in which nothing matches. -/
lemma find?_append_none {α : Type} {p : α → Bool} {l₁ l₂ : List α}
    (h : l₁.find? p = none) : (l₁ ++ l₂).find? p = l₂.find? p := by
  induction l₁ with
  | nil => rfl
  | cons a l ih =>
    rw [List.cons_append]
    cases hpa : p a with
    | true => simp [List.find?_cons, hpa] at h
    | false =>
      simp only [List.find?_cons, hpa] at h ⊢
      exact ih h

/-
Claim theorems.
-/

/-- C1: the spec claims a request for stats of an unknown user identifier
fails with the distinct 404 signal.  In the code the HTTPException(404)
raised inside the try block is caught by the handler's own blanket
`except Exception` and re-raised as HTTPException(500), so the operation
actually returns the generic HTTP 500 for every identifier absent from
the users table. -/
theorem get_user_stats_absent_user_returns_500 (uid : String) (db : DB)
    (h : ∀ r ∈ db.users, r.id ≠ uid) :
    get_user_stats uid db = .error 500 := by
  have hfind : db.users.find? (fun r => r.id == uid) = none := by
    rw [List.find?_eq_none]
    intro r hr
    simpa using h r hr
  unfold get_user_stats
  rw [hfind]

/-- Witness for C1: stats for "u1" on the empty store is HTTP 500. -/
theorem get_user_stats_absent_user_returns_500_witness :
    get_user_stats "u1" emptyDB = .error 500 :=
  get_user_stats_absent_user_returns_500 "u1" emptyDB (by simp [emptyDB])

/-- C2 counterexample: the claim says that when the extracted bracketed
substring fails to parse as JSON the handler still returns the fallback
question and never fails outright.  On the model text
"[this is not json]" the regex does extract a substring, json.loads
fails on it, and the handler returns HTTP 500, not the fallback. -/
theorem generate_quiz_parse_failure_counterexample :
    extractBracketed "[this is not json]" = some "[this is not json]" ∧
      generate_quiz (fun _ => none) "q1" sampleQuizRequest "[this is not json]" =
        .error 500 := by
  constructor <;> rfl

/-- C2 (amended): the fallback applies only when NO bracketed substring
is found — then the handler returns exactly one synthetic question with
four fixed options and correct_answer "A"; when a substring is found but
fails to parse as JSON, the handler fails with the generic HTTP 500. -/
theorem generate_quiz_fallback_policy (loads : String → Option (List Question))
    (quizId : String) (req : QuizRequest) (respText : String) :
    (extractBracketed respText = none →
      generate_quiz loads quizId req respText =
        .ok { quiz_id := quizId, questions := [fallbackQuestion req.topic],
              subject := req.subject, topic := req.topic,
              difficulty := req.difficulty }) ∧
    ((fallbackQuestion req.topic).options.length = 4 ∧
      (fallbackQuestion req.topic).correct_answer = "A") ∧
    (∀ s, extractBracketed respText = some s → loads s = none →
      generate_quiz loads quizId req respText = .error 500) := by
  refine ⟨fun hno => ?_, ⟨rfl, rfl⟩, fun s hs hl => ?_⟩
  · unfold generate_quiz
    rw [hno]
  · simp [generate_quiz, hs, hl]

/-- Witness for C2: on text with no brackets the fallback is returned;
on "[oops]" with a failing parse the result is HTTP 500. -/
theorem generate_quiz_fallback_policy_witness :
    generate_quiz (fun _ => none) "q1" sampleQuizRequest "no brackets here" =
      .ok { quiz_id := "q1",
            questions := [fallbackQuestion sampleQuizRequest.topic],
            subject := sampleQuizRequest.subject,
            topic := sampleQuizRequest.topic,
            difficulty := sampleQuizRequest.difficulty } ∧
    generate_quiz (fun _ => none) "q1" sampleQuizRequest "[oops]" = .error 500 :=
  ⟨(generate_quiz_fallback_policy (fun _ => none) "q1" sampleQuizRequest
      "no brackets here").1 (by rfl),
   (generate_quiz_fallback_policy (fun _ => none) "q1" sampleQuizRequest
      "[oops]").2.2 "[oops]" (by rfl) rfl⟩

/-- C4: when the greedy extraction (first `[` to last `]` of the model
text) yields a substring that json.loads parses successfully, the handler
returns exactly that parsed array, unmodified, as the questions list. -/
theorem generate_quiz_valid_array_returned_unmodified
    (loads : String → Option (List Question)) (quizId : String)
    (req : QuizRequest) (respText s : String) (qs : List Question)
    (hs : extractBracketed respText = some s) (hp : loads s = some qs) :
    generate_quiz loads quizId req respText =
      .ok { quiz_id := quizId, questions := qs, subject := req.subject,
            topic := req.topic, difficulty := req.difficulty } := by
  simp [generate_quiz, hs, hp]

/-- Witness for C4: from "ab[1]c" the substring "[1]" is extracted,
parsed by the sample loads, and returned unmodified. -/
theorem generate_quiz_valid_array_returned_unmodified_witness :
    generate_quiz sampleLoads "q1" sampleQuizRequest "ab[1]c" =
      .ok { quiz_id := "q1", questions := [sampleQuestion],
            subject := sampleQuizRequest.subject,
            topic := sampleQuizRequest.topic,
            difficulty := sampleQuizRequest.difficulty } :=
  generate_quiz_valid_array_returned_unmodified sampleLoads "q1"
    sampleQuizRequest "ab[1]c" "[1]" [sampleQuestion] (by rfl) (by rfl)

/-- C3: every successful submission's score lies in the documented
inclusive range [60, 99], and the score is a deterministic function of
the hash of the user identifier alone: two submissions by the same user,
with arbitrary different answers, quiz ids, subjects, timestamps and
store states, receive the same score. -/
theorem submit_quiz_score_range_and_determinism (pyHash : String → Int)
    (now1 now2 : String) (sub1 sub2 : QuizSubmission) (db1 db2 : DB)
    (resp1 resp2 : SubmitResponse) (huser : sub1.user_id = sub2.user_id)
    (h1 : (submit_quiz pyHash now1 sub1 db1).1 = .ok resp1)
    (h2 : (submit_quiz pyHash now2 sub2 db2).1 = .ok resp2) :
    60 ≤ resp1.score ∧ resp1.score ≤ 99 ∧ resp1.score = resp2.score := by
  rw [submit_ok_elim h1, submit_ok_elim h2]
  simp only [submitResponse_score]
  obtain ⟨hlo, hhi⟩ := computeScore_bounds (pyHash sub1.user_id)
  exact ⟨hlo, by omega, by rw [huser]⟩

/-- Witness for C3: constant hash 7, two submissions by user "u1". -/
theorem submit_quiz_score_range_and_determinism_witness :
    60 ≤ (submitResponse (computeScore 7) 2).score ∧
      (submitResponse (computeScore 7) 2).score ≤ 99 ∧
      (submitResponse (computeScore 7) 2).score =
        (submitResponse (computeScore 7) 1).score :=
  submit_quiz_score_range_and_determinism hash7 "t1" "t2" sampleSub1 sampleSub2
    emptyDB emptyDB (submitResponse (computeScore 7) 2)
    (submitResponse (computeScore 7) 1) rfl (by rfl) (by rfl)

/-- C9: the scoring expression caps the hash-derived value at 90, so a
successful submission's score lies in [60, 90] — strictly inside the
documented [60, 99]; both endpoints 60 and 90 are attained by some hash
values. -/
theorem submit_quiz_score_capped_at_90 (pyHash : String → Int)
    (now : String) (sub : QuizSubmission) (db : DB) (resp : SubmitResponse)
    (h : (submit_quiz pyHash now sub db).1 = .ok resp) :
    resp.score ≤ 90 ∧ 60 ≤ resp.score ∧
      computeScore 0 = 60 ∧ computeScore 30 = 90 := by
  rw [submit_ok_elim h]
  obtain ⟨hlo, hhi⟩ := computeScore_bounds (pyHash sub.user_id)
  exact ⟨hhi, hlo, by decide, by decide⟩

/-- Witness for C9: submission by "u1" with constant hash 7. -/
theorem submit_quiz_score_capped_at_90_witness :
    (submitResponse (computeScore 7) 2).score ≤ 90 ∧
      60 ≤ (submitResponse (computeScore 7) 2).score ∧
      computeScore 0 = 60 ∧ computeScore 30 = 90 :=
  submit_quiz_score_capped_at_90 hash7 "t1" sampleSub1 emptyDB
    (submitResponse (computeScore 7) 2) (by rfl)

/-- C5: in every successful submission response, xp_earned is the score
floor-divided by 10, the percentage field equals the score, and the
message is "Great job!" exactly when the score is at least 80, else
"Keep practicing!". -/
theorem submit_quiz_response_consistency (pyHash : String → Int)
    (now : String) (sub : QuizSubmission) (db : DB) (resp : SubmitResponse)
    (h : (submit_quiz pyHash now sub db).1 = .ok resp) :
    resp.xp_earned = Int.fdiv resp.score 10 ∧
      resp.percentage = resp.score ∧
      (resp.message = "Great job!" ↔ 80 ≤ resp.score) ∧
      (resp.message = "Keep practicing!" ↔ resp.score < 80) := by
  rw [submit_ok_elim h]
  simp only [submitResponse_score, submitResponse_percentage, submitResponse_xp,
    submitResponse_message]
  by_cases hc : 80 ≤ computeScore (pyHash sub.user_id)
  · rw [if_pos hc]
    exact ⟨trivial, trivial, ⟨fun _ => hc, fun _ => rfl⟩,
      ⟨fun hmsg => absurd hmsg (by decide), fun hlt => absurd hc (not_le.mpr hlt)⟩⟩
  · rw [if_neg hc]
    exact ⟨trivial, trivial, ⟨fun hmsg => absurd hmsg (by decide), fun hge => absurd hge hc⟩,
      ⟨fun _ => not_le.mp hc, fun _ => rfl⟩⟩

/-- Witness for C5: submission by "u1" with constant hash 7 (score 67). -/
theorem submit_quiz_response_consistency_witness :
    (submitResponse (computeScore 7) 2).xp_earned =
        Int.fdiv (submitResponse (computeScore 7) 2).score 10 ∧
      (submitResponse (computeScore 7) 2).percentage =
        (submitResponse (computeScore 7) 2).score ∧
      ((submitResponse (computeScore 7) 2).message = "Great job!" ↔
        80 ≤ (submitResponse (computeScore 7) 2).score) ∧
      ((submitResponse (computeScore 7) 2).message = "Keep practicing!" ↔
        (submitResponse (computeScore 7) 2).score < 80) :=
  submit_quiz_response_consistency hash7 "t1" sampleSub1 emptyDB
    (submitResponse (computeScore 7) 2) (by rfl)

/-- C6: every successful submission appends exactly one quiz_history row,
whose total_questions equals the number of submitted answers; every
pre-existing quiz_history row is left in place unchanged, and the users
table is untouched. -/
theorem submit_quiz_inserts_exactly_one_row (pyHash : String → Int)
    (now : String) (sub : QuizSubmission) (db : DB) (resp : SubmitResponse)
    (h : (submit_quiz pyHash now sub db).1 = .ok resp) :
    (submit_quiz pyHash now sub db).2.quiz_history =
        db.quiz_history ++
          [{ id := sub.quiz_id, user_id := sub.user_id, subject := sub.subject,
             score := computeScore (pyHash sub.user_id),
             total_questions := sub.answers.length, timestamp := now }] ∧
      (submit_quiz pyHash now sub db).2.users = db.users := by
  unfold submit_quiz at h ⊢
  by_cases hc : db.quiz_history.any (fun r => r.id == sub.quiz_id)
  · simp [hc] at h
  · simp [hc]

/-- Witness for C6: submission of two answers on the empty store. -/
theorem submit_quiz_inserts_exactly_one_row_witness :
    (submit_quiz hash7 "t1" sampleSub1 emptyDB).2.quiz_history =
        emptyDB.quiz_history ++
          [{ id := sampleSub1.quiz_id, user_id := sampleSub1.user_id,
             subject := sampleSub1.subject,
             score := computeScore (hash7 sampleSub1.user_id),
             total_questions := sampleSub1.answers.length, timestamp := "t1" }] ∧
      (submit_quiz hash7 "t1" sampleSub1 emptyDB).2.users = emptyDB.users :=
  submit_quiz_inserts_exactly_one_row hash7 "t1" sampleSub1 emptyDB
    (submitResponse (computeScore 7) 2) (by rfl)

/-- C10: a submission whose quiz identifier already exists as a
quiz_history primary key fails with the generic HTTP 500 and leaves the
whole store (both tables) exactly unchanged. -/
theorem submit_quiz_duplicate_id_fails_atomically (pyHash : String → Int)
    (now : String) (sub : QuizSubmission) (db : DB)
    (hdup : ∃ r ∈ db.quiz_history, r.id = sub.quiz_id) :
    (submit_quiz pyHash now sub db).1 = .error 500 ∧
      (submit_quiz pyHash now sub db).2 = db := by
  have hc : db.quiz_history.any (fun r => r.id == sub.quiz_id) = true := by
    obtain ⟨r, hr, hid⟩ := hdup
    exact List.any_eq_true.mpr ⟨r, hr, by simp [hid]⟩
  unfold submit_quiz
  simp [hc]

/-- Witness for C10: resubmitting quiz id "q1" against a store already
holding a quiz_history row with id "q1". -/
theorem submit_quiz_duplicate_id_fails_atomically_witness :
    (submit_quiz hash7 "t9" sampleSub1 dbWithQuiz).1 = .error 500 ∧
      (submit_quiz hash7 "t9" sampleSub1 dbWithQuiz).2 = dbWithQuiz :=
  submit_quiz_duplicate_id_fails_atomically hash7 "t9" sampleSub1 dbWithQuiz
    ⟨sampleQuizRow, by simp [dbWithQuiz], rfl⟩

/-- C8: no operation mutates an existing users row.  A quiz submission
returns the users table exactly unchanged whatever the outcome, and user
creation either leaves the table unchanged (failed insert) or appends
one fresh row after the existing ones.  The chat, quiz-generation and
stats handlers produce no new store at all, as their types show. -/
theorem users_rows_never_mutated (pyHash : String → Int) (now : String)
    (sub : QuizSubmission) (newId : String) (u : UserRequest) (db : DB) :
    (submit_quiz pyHash now sub db).2.users = db.users ∧
      ((create_user newId u db).2.users = db.users ∨
        (create_user newId u db).2.users =
          db.users ++ [{ id := newId, name := u.name,
                         subjects := dumpsList u.subjects, level := 1, xp := 0 }]) := by
  constructor
  · unfold submit_quiz
    split
    · rfl
    · rfl
  · unfold create_user
    split
    · exact Or.inl rfl
    · exact Or.inr rfl

/-- C7: after a successful user creation, requesting stats for the
returned identifier succeeds and returns the created name, level 1,
xp 0, and an empty subject_stats list, provided no quiz submission for
that identifier has ever been recorded (the quiz_history table holds no
row with that user_id; submissions do not require the user to exist, and
such a row would surface in the aggregate). -/
theorem create_user_then_stats_roundtrip (newId : String) (u : UserRequest)
    (db : DB) (resp : CreateResponse)
    (hok : (create_user newId u db).1 = .ok resp)
    (hq : ∀ r ∈ db.quiz_history, r.user_id ≠ newId) :
    resp.user_id = newId ∧
      get_user_stats newId (create_user newId u db).2 =
        .ok { user_id := newId, name := u.name, level := 1, xp := 0,
              subject_stats := [] } := by
  by_cases hc : db.users.any (fun r => r.id == newId)
  · unfold create_user at hok
    simp [hc] at hok
  · have hresp : resp = { user_id := newId, message := "User created successfully" } := by
      unfold create_user at hok
      simp [hc] at hok
      exact hok.symm
    have hdb2 : (create_user newId u db).2 =
        { users := db.users ++
            [{ id := newId, name := u.name, subjects := dumpsList u.subjects,
               level := 1, xp := 0 }],
          quiz_history := db.quiz_history } := by
      unfold create_user
      simp [hc]
    have hfind : db.users.find? (fun r => r.id == newId) = none := by
      rw [List.find?_eq_none]
      intro r hr hpr
      exact hc (List.any_eq_true.mpr ⟨r, hr, hpr⟩)
    have hfilter : db.quiz_history.filter (fun r => r.user_id == newId) = [] := by
      rw [List.filter_eq_nil_iff]
      intro r hr
      simpa using hq r hr
    refine ⟨by rw [hresp], ?_⟩
    rw [hdb2]
    unfold get_user_stats
    simp only [find?_append_none hfind, List.find?_cons, beq_self_eq_true, hfilter]
    simp [groupSubjects, dedupFirst]

/-- Witness for C7: create "Ana" with fresh id "u9" on the empty store,
then read the stats back. -/
theorem create_user_then_stats_roundtrip_witness :
    ({ user_id := "u9", message := "User created successfully" } : CreateResponse).user_id = "u9" ∧
      get_user_stats "u9" (create_user "u9" sampleUserReq emptyDB).2 =
        .ok { user_id := "u9", name := sampleUserReq.name, level := 1, xp := 0,
              subject_stats := [] } :=
  create_user_then_stats_roundtrip "u9" sampleUserReq emptyDB
    { user_id := "u9", message := "User created successfully" } (by rfl)
    (by simp [emptyDB])
